import Mathlib

/-
  Verification development for the CUPiD notebook-execution pipeline
  (NCAR/CUPiD).  The sources available are the repository documentation,
  example configuration files, CESM post-processing shell scripts, and the
  ROF discharge notebook; the python pipeline modules themselves
  (cupid/run.py and cupid/util.py) are not among the sources, so the
  Task Expander, Parameter Resolver, Execution Scheduler and fail-fast
  checks are modelled from the specification, while the notebook cells and
  shell scripts are embedded from the sources directly.
-/

namespace CUPiD

/-- Configuration values as they appear in config.yml: scalars, null, and
nested mappings. -/
inductive Value where
  | str : String → Value
  | int : Int → Value
  | bool : Bool → Value
  | vnull : Value
  | vmap : List (String × Value) → Value

/-- Parameter layer: a mapping from parameter name to value, as one block of
a config.yml document. -/
abbrev Params : Type := List (String × Value)

/-- Look inside a composite (mapping) value; scalar values have no keys. -/
def Value.getKey : Value → String → Option Value
  | .vmap es, sub => es.lookup sub
  | .str _, _ => none
  | .int _, _ => none
  | .bool _, _ => none
  | .vnull, _ => none

/-- Modelled from the spec: the Parameter Resolver merges three layers
(lowest to highest precedence: global parameters, component-selection
flags, group-specific parameters) into one ParameterSet per job; a key in
a higher-precedence layer overrides lower layers, and lookups fall through
to lower layers only when the key is absent above (spec section 3 and 4.2;
the python module holding this code is not among the sources). The merged
association list is searched front to back, so listing the group layer
first gives it the highest precedence. -/
def resolveParams (global flags group : Params) : Params :=
  group ++ flags ++ global

/-- Lookup of one parameter in a resolved ParameterSet. -/
def getParam (ps : Params) (k : String) : Option Value :=
  ps.lookup k

/-- Modelled from the spec: one notebook entry of compute_notebooks, holding
the notebook name (file name minus .ipynb) and its parameter_groups mapping
(group name to group-specific parameters); a notebook meant to run once has
the single implicit group named none (spec section 3; config.yml shape). -/
structure NotebookSpec where
  name : String
  parameter_groups : List (String × Params)

/-- Modelled from the spec: one component entry of compute_notebooks, a
component tag (atm, ocn, lnd, ice, rof, glc, infrastructure) and its list
of notebooks, in declaration order. -/
structure ComponentSpec where
  component : String
  notebooks : List NotebookSpec

/-- Modelled from the spec: the Configuration document (spec section 3):
global parameters, the compute_notebooks mapping in declaration order, and
the set of notebook names available under the notebook-library root
nb_path_root (the python module holding the configuration model is not
among the sources; the shape follows the example config.yml files). -/
structure Configuration where
  global_params : Params
  compute_notebooks : List ComponentSpec
  nb_library : List String

/-- Modelled from the spec: a Job, the unit of execution, identified by
(component, notebook name, parameter-group name) and carrying the group
parameters attached at expansion (spec section 3). -/
structure Job where
  component : String
  notebook : String
  group : String
  group_params : Params

/-- Modelled from the spec: the Task Expander produces Jobs for every
component the caller selected, or for all components when none was
explicitly selected (spec sections 4.1 and 6; the README documents that
the absence of component flags means --all). -/
def selectComponents (cfg : Configuration) (sel : List String) : List ComponentSpec :=
  if sel.isEmpty then cfg.compute_notebooks
  else cfg.compute_notebooks.filter (fun c => sel.contains c.component)

/-- Modelled from the spec: the Task Expander, a pure expansion function
from the Configuration and the component selection to the flat list of
Jobs, one Job per entry of each listed notebook parameter_groups mapping,
in declaration order (spec section 4.1). -/
def expandJobs (cfg : Configuration) (sel : List String) : List Job :=
  (selectComponents cfg sel).flatMap (fun c =>
    c.notebooks.flatMap (fun nb =>
      nb.parameter_groups.map (fun g =>
        { component := c.component
          notebook := nb.name
          group := g.1
          group_params := g.2 })))

/-- Modelled from the spec: the full expansion with no component filter,
used to state that an empty selection means all components. -/
def allJobs (cfg : Configuration) : List Job :=
  cfg.compute_notebooks.flatMap (fun c =>
    c.notebooks.flatMap (fun nb =>
      nb.parameter_groups.map (fun g =>
        { component := c.component
          notebook := nb.name
          group := g.1
          group_params := g.2 })))

/-- Modelled from the spec: every notebook name referenced anywhere in
compute_notebooks. -/
def referencedNotebooks (cfg : Configuration) : List String :=
  cfg.compute_notebooks.flatMap (fun c => c.notebooks.map (fun nb => nb.name))

/-- Modelled from the spec: fail-fast expansion: a notebook referenced in
compute_notebooks but missing from the notebook-library root is a hard
configuration error raised before scheduling begins, with no partial
expansion (spec sections 4.1 and 7). -/
def expandChecked (cfg : Configuration) (sel : List String) :
    Except String (List Job) :=
  match (referencedNotebooks cfg).find? (fun nb => !(cfg.nb_library.contains nb)) with
  | some nb => .error ("notebook not found under nb_path_root: " ++ nb)
  | none => .ok (expandJobs cfg sel)

/-- Job status as in the spec state machine (spec section 3). -/
inductive Status where
  | pending
  | running
  | succeeded
  | failed
  | skipped
deriving DecidableEq

/-- Outcome of executing one notebook out-of-process: a rendered artifact,
or a captured error. -/
inductive Outcome where
  | success : String → Outcome
  | failure : String → Outcome

/-- Modelled from the spec: the RunResult entry for one Job: its identity,
final status, and the artifact path when one was produced; a failed Job
has no artifact path (spec sections 3 and 4.5). -/
structure JobResult where
  job : Job
  status : Status
  artifact : Option String

/-- Modelled from the spec: the Scheduler wraps one Job execution so that a
failure becomes a recorded outcome (status failed, no artifact), never an
exception escaping the Scheduler (spec sections 4.3 and 7). -/
def runJob (exec : Job → Outcome) (j : Job) : JobResult :=
  match exec j with
  | .success a => { job := j, status := .succeeded, artifact := some a }
  | .failure _ => { job := j, status := .failed, artifact := none }

/-- Modelled from the spec: the Execution Scheduler runs every Job to a
terminal state and collects the RunResult, an entry per Job; individual
failures are captured per entry and do not stop the other Jobs
(spec sections 4.3 and 4.5). -/
def schedule (jobs : List Job) (exec : Job → Outcome) : List JobResult :=
  jobs.map (runJob exec)

/-- Modelled from the spec: the whole pipeline: fail-fast expansion, then
scheduling; only configuration-time errors propagate to the top level,
per-Job failures are inside the ok RunResult (spec section 7). -/
def runPipeline (cfg : Configuration) (sel : List String)
    (exec : Job → Outcome) : Except String (List JobResult) :=
  match expandChecked cfg sel with
  | .error e => .error e
  | .ok jobs => .ok (schedule jobs exec)

/-- Result of the dask cell of the ROF discharge notebook: the client that
the cell leaves behind (none when no cluster was started, otherwise a tag
naming the kind of cluster the client is connected to) and how many
clusters the cell created. -/
structure DaskCellResult where
  client : Option String
  clustersCreated : Nat

/-- Embeds the dask cell of the ROF discharge notebook: client is None;
when cupid_run is set (the CUPiD pipeline executing the notebook), and the
notebook is not serial, a dask LocalCluster is created from lc_kwargs and a
Client is connected to it; outside CUPiD (interactive use) a PBSCluster is
created instead when not serial; a serial notebook creates nothing. -/
def daskCell (cupid_run serial : Bool) : DaskCellResult :=
  if cupid_run then
    if !serial then { client := some "LocalCluster", clustersCreated := 1 }
    else { client := none, clustersCreated := 0 }
  else
    if !serial then { client := some "PBSCluster", clustersCreated := 1 }
    else { client := none, clustersCreated := 0 }

/-- Total number of dask clusters created during one CUPiD run, summing the
dask cell of each executed notebook over the serial flag each notebook was
given (cupid_run is True inside the pipeline); the notebooks, per the
README serial snippet and the ROF notebook, each start their own cluster
when not serial. -/
def runClustersCreated (serialFlags : List Bool) : Nat :=
  (serialFlags.map (fun s => (daskCell true s).clustersCreated)).sum

/-- One entry of case_dic in the ROF discharge notebook setup cell: the
grid, the simulation period slice, and the climatology year count
(none when a date fails to parse as a year, where python int() would
raise). -/
structure CaseEntry where
  grid : String
  sim_period : String × String
  climo_nyrs : Option Int

/-- Python int() on the first four characters of a date string, as the
setup cell applies to start_date and end_date. -/
def yearOf (s : String) : Option Int :=
  (s.take 4).toInt?

/-- Climatology year count of one case_dic entry:
min(climo_nyears, int(end[:4]) - int(start[:4]) + 1). -/
def climoNyrs (climo_nyears : Int) (start_d end_d : String) : Option Int :=
  match yearOf start_d, yearOf end_d with
  | some y0, some y1 => some (min climo_nyears (y1 - y0 + 1))
  | _, _ => none

/-- Variables left by the ROF setup cell that the claims are about:
analysis_name and base_grid_name after the two conditional reassignments,
and the two case_dic entries. -/
structure RofSetupResult where
  analysis_name : String
  base_grid_name : String
  case_entry : CaseEntry
  base_case_entry : CaseEntry

/-- Embeds the setup cell of the ROF discharge notebook: an empty (falsy)
analysis_name is replaced by case_name; a truthy (non-empty)
base_grid_name is reassigned to grid_name; case_dic maps case_name and
base_case_name to entries whose grid field is grid_name in both cases. -/
def rofSetupCell (case_name analysis_name grid_name base_grid_name : String)
    (climo_nyears : Int) (start_date end_date base_start_date base_end_date : String) :
    RofSetupResult :=
  let analysis_name := if analysis_name = "" then case_name else analysis_name
  let base_grid_name := if base_grid_name ≠ "" then grid_name else base_grid_name
  { analysis_name := analysis_name
    base_grid_name := base_grid_name
    case_entry :=
      { grid := grid_name
        sim_period := (start_date, end_date)
        climo_nyrs := climoNyrs climo_nyears start_date end_date }
    base_case_entry :=
      { grid := grid_name
        sim_period := (base_start_date, base_end_date)
        climo_nyrs := climoNyrs climo_nyears base_start_date base_end_date } }

/-- XML variables read by the CESM post-processing driver script that feed
the component-flag assembly (each is the string value of the CESM XML
variable of the same name). -/
structure CesmPostEnv where
  run_all : String
  run_atm : String
  run_ocn : String
  run_lnd : String
  run_ice : String
  run_rof : String
  run_glc : String
  ntasks : String

/-- One conditional append of the driver script: the flag with its leading
space when the XML variable equals TRUE, nothing otherwise. -/
def flagPiece (v flag : String) : String :=
  if v = "TRUE" then flag else ""

/-- The component flags appended to CUPID_FLAG_STRING inside the
CUPID_RUN_ALL == FALSE branch of the driver script, in script order. -/
def componentFlags (e : CesmPostEnv) : String :=
  flagPiece e.run_atm " -atm" ++ flagPiece e.run_ocn " -ocn" ++
    flagPiece e.run_lnd " -lnd" ++ flagPiece e.run_ice " -ice" ++
    flagPiece e.run_rof " -rof" ++ flagPiece e.run_glc " -glc"

/-- Embeds the CUPID_FLAG_STRING assembly of the CESM post-processing
driver script: when CUPID_RUN_ALL is FALSE the six component variables are
translated to flags, and an empty result exits the script with status 1;
when CUPID_RUN_ALL is not FALSE no component flag is added; error carries
the exit status. -/
def cupidFlagAssembly (e : CesmPostEnv) : Except Nat String :=
  if e.run_all = "FALSE" then
    let s := componentFlags e
    if s = "" then .error 1
    else .ok s
  else .ok ""

/-- Embeds the rest of the flag handling before step 1 of the driver
script: CUPID_NTASKS equal to 1 appends --serial; the ok value is the flag
string the script passes to the pipeline steps it then runs, and an error
means the script exited before generating any CUPiD configuration. -/
def cesmPostFlagString (e : CesmPostEnv) : Except Nat String :=
  match cupidFlagAssembly e with
  | .error c => .error c
  | .ok s => .ok (s ++ (if e.ntasks = "1" then " --serial" else ""))

/-- Whether the driver script reaches step 1 (generating the CUPiD
configuration for the CESM case) and the later pipeline steps. -/
def configGenerated (e : CesmPostEnv) : Bool :=
  match cesmPostFlagString e with
  | .error _ => false
  | .ok _ => true

theorem lookup_append {V : Type} (l₁ l₂ : List (String × V)) (k : String) :
    (l₁ ++ l₂).lookup k = ((l₁.lookup k).orElse (fun _ => l₂.lookup k)) := by
  induction l₁ with
  | nil => rfl
  | cons p t ih =>
    by_cases h : k = p.1
    · simp [List.lookup, h]
    · have hb : (k == p.1) = false := by
        exact beq_false_of_ne h
      simp [List.lookup, hb, ih]

theorem string_append_ne_empty_right (s t : String) (h : t ≠ "") : s ++ t ≠ "" := by
  intro heq
  apply h
  have hd : s.data ++ t.data = ([] : List Char) := by
    have := congrArg String.data heq
    simpa using this
  exact String.ext (List.append_eq_nil.mp hd).2

theorem string_append_ne_empty_left (s t : String) (h : s ≠ "") : s ++ t ≠ "" := by
  intro heq
  apply h
  have hd : s.data ++ t.data = ([] : List Char) := by
    have := congrArg String.data heq
    simpa using this
  exact String.ext (List.append_eq_nil.mp hd).1

/-- C1: the Task Expander produces exactly one Job per entry of each
parameter_groups mapping of each notebook listed under each selected
component, so the total number of Jobs equals the sum, over selected
components and their notebooks, of the number of parameter-group entries
(a notebook with the single implicit group none has one entry, hence one
Job). -/
theorem expandJobs_length_eq_sum_groups (cfg : Configuration) (sel : List String) :
    (expandJobs cfg sel).length =
      ((selectComponents cfg sel).map (fun c =>
        (c.notebooks.map (fun nb => nb.parameter_groups.length)).sum)).sum := by
  unfold expandJobs
  simp [List.length_flatMap, List.map_map, Function.comp_def]

/-- C3: for every Job, a parameter key present in both the global layer and
the group-specific layer resolves to the group-specific value; in general
the resolved value comes from the highest-precedence layer containing the
key (group-specific over component-selection flags over global). -/
theorem parameter_precedence (g f gr : Params) (k : String) :
    (∀ v, gr.lookup k = some v → getParam (resolveParams g f gr) k = some v) ∧
    (gr.lookup k = none → ∀ v, f.lookup k = some v →
      getParam (resolveParams g f gr) k = some v) ∧
    (gr.lookup k = none → f.lookup k = none →
      getParam (resolveParams g f gr) k = g.lookup k) := by
  unfold getParam resolveParams
  refine ⟨?_, ?_, ?_⟩
  · intro v hv
    simp [lookup_append, hv]
  · intro hgr v hv
    simp [lookup_append, hgr, hv]
  · intro hgr hf
    simp [lookup_append, hgr, hf]

/-- Witness for C3: with the global case_name of the example config.yml and
a group-specific override, the resolved value is the group value. -/
theorem parameter_precedence_witness :
    getParam
      (resolveParams
        [("case_name", Value.str "b.e30_beta02.BLT1850.ne30_t232.104")]
        []
        [("case_name", Value.str "b.e23_alpha17f.BLT1850.ne30_t232.092")])
      "case_name" = some (Value.str "b.e23_alpha17f.BLT1850.ne30_t232.092") :=
  (parameter_precedence
    [("case_name", Value.str "b.e30_beta02.BLT1850.ne30_t232.104")]
    []
    [("case_name", Value.str "b.e23_alpha17f.BLT1850.ne30_t232.092")]
    "case_name").1 _ rfl

/-- C4: a composite (mapping) parameter present in two layers is replaced
wholesale by the higher-precedence mapping: the resolved value is exactly
the group mapping, and any key of the global mapping that is absent from
the group mapping is absent from the resolved value (no deep merge). -/
theorem composite_params_replaced_wholesale (g f gr : Params) (k : String)
    (m mg : List (String × Value))
    (hgr : gr.lookup k = some (Value.vmap m))
    (_hg : g.lookup k = some (Value.vmap mg)) :
    getParam (resolveParams g f gr) k = some (Value.vmap m) ∧
    ∀ sub : String, m.lookup sub = none →
      (getParam (resolveParams g f gr) k).bind (fun v => v.getKey sub) = none := by
  have hres := (parameter_precedence g f gr k).1 _ hgr
  refine ⟨hres, ?_⟩
  intro sub hsub
  rw [hres]
  simp [Value.getKey, hsub]

/-- Witness for C4: the nested mom6_tools_config mapping of the example
config.yml overridden by a group-specific mapping that lacks the oce_cat
key: the resolved mapping is the override and oce_cat is gone. -/
theorem composite_params_replaced_wholesale_witness :
    getParam
      (resolveParams
        [("mom6_tools_config", Value.vmap
          [("Fnames", Value.vmap
            [("native", Value.str "mom6.h.native.????-??.nc"),
             ("static", Value.str "mom6.h.static.nc")]),
           ("oce_cat", Value.str "reference-datasets.yml")])]
        []
        [("mom6_tools_config", Value.vmap
          [("Fnames", Value.vmap
            [("native", Value.str "mom6.h.z.????-??.nc")])])])
      "mom6_tools_config"
      = some (Value.vmap
          [("Fnames", Value.vmap
            [("native", Value.str "mom6.h.z.????-??.nc")])]) ∧
    (getParam
      (resolveParams
        [("mom6_tools_config", Value.vmap
          [("Fnames", Value.vmap
            [("native", Value.str "mom6.h.native.????-??.nc"),
             ("static", Value.str "mom6.h.static.nc")]),
           ("oce_cat", Value.str "reference-datasets.yml")])]
        []
        [("mom6_tools_config", Value.vmap
          [("Fnames", Value.vmap
            [("native", Value.str "mom6.h.z.????-??.nc")])])])
      "mom6_tools_config").bind (fun v => v.getKey "oce_cat") = none := by
  have h := composite_params_replaced_wholesale
    [("mom6_tools_config", Value.vmap
      [("Fnames", Value.vmap
        [("native", Value.str "mom6.h.native.????-??.nc"),
         ("static", Value.str "mom6.h.static.nc")]),
       ("oce_cat", Value.str "reference-datasets.yml")])]
    []
    [("mom6_tools_config", Value.vmap
      [("Fnames", Value.vmap
        [("native", Value.str "mom6.h.z.????-??.nc")])])]
    "mom6_tools_config"
    [("Fnames", Value.vmap [("native", Value.str "mom6.h.z.????-??.nc")])]
    [("Fnames", Value.vmap
      [("native", Value.str "mom6.h.native.????-??.nc"),
       ("static", Value.str "mom6.h.static.nc")]),
     ("oce_cat", Value.str "reference-datasets.yml")]
    rfl rfl
  exact ⟨h.1, h.2 "oce_cat" rfl⟩

theorem runJob_job (exec : Job → Outcome) (j : Job) : (runJob exec j).job = j := by
  unfold runJob
  cases exec j <;> rfl

/-- C2: a failing Job is captured at the Scheduler level: every Job has an
entry in the RunResult (the entries list the Jobs in order), a Job whose
execution succeeds reaches succeeded with its artifact no matter what the
other Jobs do, a Job whose execution fails is recorded failed with no
artifact path, every failed entry has no artifact path, and the Scheduler
returns an ok RunResult (no exception propagates) whenever expansion
succeeded. -/
theorem scheduler_partial_failure (jobs : List Job) (exec : Job → Outcome) :
    ((schedule jobs exec).map (fun r => r.job) = jobs) ∧
    (∀ j ∈ jobs, ∀ a, exec j = .success a →
      ({ job := j, status := .succeeded, artifact := some a } : JobResult)
        ∈ schedule jobs exec) ∧
    (∀ j ∈ jobs, ∀ e, exec j = .failure e →
      ({ job := j, status := .failed, artifact := none } : JobResult)
        ∈ schedule jobs exec) ∧
    (∀ r ∈ schedule jobs exec, r.status = .failed → r.artifact = none) ∧
    (∀ cfg sel, expandChecked cfg sel = .ok jobs →
      runPipeline cfg sel exec = .ok (schedule jobs exec)) := by
  refine ⟨?_, ?_, ?_, ?_, ?_⟩
  · unfold schedule
    rw [List.map_map]
    calc jobs.map ((fun r => r.job) ∘ runJob exec)
        = jobs.map id := List.map_congr_left (fun j _ => runJob_job exec j)
      _ = jobs := List.map_id jobs
  · intro j hj a ha
    have hm := List.mem_map_of_mem (runJob exec) hj
    simpa [runJob, ha, schedule] using hm
  · intro j hj e he
    have hm := List.mem_map_of_mem (runJob exec) hj
    simpa [runJob, he, schedule] using hm
  · intro r hr hfail
    unfold schedule at hr
    obtain ⟨j, _, hjr⟩ := List.mem_map.mp hr
    subst hjr
    unfold runJob at hfail ⊢
    cases hx : exec j <;> simp_all
  · intro cfg sel hok
    unfold runPipeline
    rw [hok]

/-- Jobs of the scenario of spec section 8: notebook A under atm with two
parameter groups, notebook B under ocn with the single implicit group. -/
def demoJobA1 : Job :=
  { component := "atm", notebook := "A", group := "g1", group_params := [] }

def demoJobA2 : Job :=
  { component := "atm", notebook := "A", group := "g2", group_params := [] }

def demoJobB : Job :=
  { component := "ocn", notebook := "B", group := "none", group_params := [] }

def demoJobs : List Job := [demoJobA1, demoJobA2, demoJobB]

/-- Execution stub for the scenario: the (atm, A, g1) Job raises, every
other Job renders its notebook. -/
def demoExec : Job → Outcome :=
  fun j =>
    if j.notebook = "A" ∧ j.group = "g1" then .failure "notebook raised"
    else .success "rendered.ipynb"

/-- Witness for C2: in a batch where (atm, A, g1) fails, the (ocn, B, none)
Job still reaches succeeded with its artifact and the failed Job is
recorded with no artifact path. -/
theorem scheduler_partial_failure_witness :
    ({ job := demoJobB, status := .succeeded, artifact := some "rendered.ipynb" } :
        JobResult) ∈ schedule demoJobs demoExec ∧
    ({ job := demoJobA1, status := .failed, artifact := none } : JobResult)
      ∈ schedule demoJobs demoExec :=
  ⟨(scheduler_partial_failure demoJobs demoExec).2.1 demoJobB
      (List.Mem.tail _ (List.Mem.tail _ (List.Mem.head _))) "rendered.ipynb" rfl,
   (scheduler_partial_failure demoJobs demoExec).2.2.1 demoJobA1
      (List.Mem.head _) "notebook raised" rfl⟩

/-- C7: the Task Expander produces Jobs only for components of a non-empty
selection (Jobs of unselected components are absent from the expansion),
and an empty selection expands every component listed in the
Configuration. -/
theorem selection_restricts_jobs (cfg : Configuration) (sel : List String) :
    (sel ≠ [] → ∀ j ∈ expandJobs cfg sel, j.component ∈ sel) ∧
    (sel = [] → expandJobs cfg sel = allJobs cfg) := by
  constructor
  · intro hne j hj
    unfold expandJobs selectComponents at hj
    rw [if_neg (by simpa [List.isEmpty_iff] using hne)] at hj
    simp only [List.mem_flatMap, List.mem_map, List.mem_filter] at hj
    obtain ⟨c, ⟨_, hcsel⟩, nb, _, g, _, hjeq⟩ := hj
    have : j.component = c.component := by rw [← hjeq]
    rw [this]
    exact List.elem_iff.mp hcsel
  · intro h
    subst h
    rfl

/-- Configuration of the scenario of spec section 8, with both notebooks
present in the notebook library. -/
def demoConfig : Configuration :=
  { global_params := [("case_name", Value.str "b.e30_beta02.BLT1850.ne30_t232.104")]
    compute_notebooks :=
      [ { component := "atm"
          notebooks := [{ name := "A", parameter_groups := [("g1", []), ("g2", [])] }] },
        { component := "ocn"
          notebooks := [{ name := "B", parameter_groups := [("none", [])] }] } ]
    nb_library := ["A", "B"] }

/-- Witness for C7: selecting only ocn on the scenario Configuration keeps
every produced Job inside the selection, and the whole expansion is the
single (ocn, B, none) Job. -/
theorem selection_restricts_jobs_witness :
    (∀ j ∈ expandJobs demoConfig ["ocn"], j.component ∈ ["ocn"]) ∧
    expandJobs demoConfig ["ocn"] = [demoJobB] :=
  ⟨(selection_restricts_jobs demoConfig ["ocn"]).1 (by simp), rfl⟩

/-- Scenario of spec section 8 on the model: the full expansion of the
scenario Configuration is exactly the three Jobs (atm, A, g1),
(atm, A, g2), (ocn, B, none), in declaration order. -/
theorem demoConfig_expansion : expandJobs demoConfig [] = demoJobs := rfl

/-- C8: a Configuration referencing a notebook that is missing from the
notebook-library root makes expansion a hard error, and the error
propagates out of the whole pipeline, so no Job is created or scheduled
and no notebook runs. -/
theorem missing_notebook_aborts_run (cfg : Configuration) (sel : List String)
    (nb : String) (h1 : nb ∈ referencedNotebooks cfg)
    (h2 : nb ∉ cfg.nb_library) :
    (∃ msg, expandChecked cfg sel = .error msg) ∧
    (∀ exec, ∃ msg, runPipeline cfg sel exec = .error msg) := by
  have hsome :
      ((referencedNotebooks cfg).find? (fun x => !(cfg.nb_library.contains x))).isSome := by
    rw [List.find?_isSome]
    exact ⟨nb, h1, by simp [h2]⟩
  obtain ⟨y, hy⟩ := Option.isSome_iff_exists.mp hsome
  have herr : expandChecked cfg sel =
      .error ("notebook not found under nb_path_root: " ++ y) := by
    unfold expandChecked
    rw [hy]
  exact ⟨⟨_, herr⟩, fun exec => ⟨_, by unfold runPipeline; rw [herr]⟩⟩

/-- Configuration referencing a notebook Ghost that the notebook library
does not contain. -/
def demoBrokenConfig : Configuration :=
  { global_params := []
    compute_notebooks :=
      [ { component := "atm"
          notebooks := [{ name := "Ghost", parameter_groups := [("none", [])] }] } ]
    nb_library := ["A", "B"] }

/-- Witness for C8: the Configuration referencing the missing notebook
Ghost aborts both expansion and the whole pipeline. -/
theorem missing_notebook_aborts_run_witness :
    (∃ msg, expandChecked demoBrokenConfig [] = .error msg) ∧
    (∀ exec, ∃ msg, runPipeline demoBrokenConfig [] exec = .error msg) :=
  missing_notebook_aborts_run demoBrokenConfig [] "Ghost" (by simp [referencedNotebooks, demoBrokenConfig]) (by decide)

/-- Counterexample to C5 as stated: two Jobs requesting parallel execution
(serial False) make the run create two clusters, one per notebook dask
cell, so it is not the case that at most one cluster is created per run. -/
theorem shared_cluster_counterexample :
    ¬ (runClustersCreated [false, false] ≤ 1) := by
  decide

/-- C5 amended: there is no single shared cluster handle; every Job that
requests parallel execution creates its own cluster inside its notebook
dask cell, so a run creates exactly as many clusters as it has non-serial
Jobs (and a parallel notebook holds a client to the cluster it created,
which its final cell shuts down). -/
theorem per_job_cluster_creation (serialFlags : List Bool) :
    runClustersCreated serialFlags = (serialFlags.filter (fun s => !s)).length ∧
    (daskCell true false).clustersCreated = 1 ∧
    (daskCell true false).client = some "LocalCluster" := by
  refine ⟨?_, rfl, rfl⟩
  induction serialFlags with
  | nil => rfl
  | cons s t ih =>
    cases s <;> simp [runClustersCreated, daskCell, List.filter_cons] at ih ⊢ <;>
      omega

/-- C6: a fully serial run creates no cluster at any point: the sum of
clusters created over all executed notebooks is zero, and in each executed
notebook the cluster-creation branch of the dask cell is not taken (no
client, no cluster). -/
theorem serial_run_creates_no_cluster (serialFlags : List Bool)
    (h : ∀ s ∈ serialFlags, s = true) :
    runClustersCreated serialFlags = 0 ∧
    (daskCell true true).clustersCreated = 0 ∧
    (daskCell true true).client = none := by
  refine ⟨?_, rfl, rfl⟩
  induction serialFlags with
  | nil => rfl
  | cons s t ih =>
    have hs := h s (List.mem_cons_self ..)
    subst hs
    have ht := ih (fun x hx => h x (List.mem_cons_of_mem _ hx))
    simpa [runClustersCreated, daskCell] using ht

/-- Witness for C6: a run of two serial notebooks creates no cluster. -/
theorem serial_run_creates_no_cluster_witness :
    runClustersCreated [true, true] = 0 ∧
    (daskCell true true).clustersCreated = 0 ∧
    (daskCell true true).client = none :=
  serial_run_creates_no_cluster [true, true] (by decide)

/-- C9: in the ROF discharge notebook setup cell, a truthy (non-empty)
base_grid_name is unconditionally reassigned to grid_name before use, so a
base-case grid name different from the case grid name is always discarded
and both case_dic entries carry the same grid value. -/
theorem base_grid_name_always_discarded
    (case_name analysis_name grid_name base_grid_name : String)
    (climo_nyears : Int)
    (start_date end_date base_start_date base_end_date : String)
    (h : base_grid_name ≠ "") :
    (rofSetupCell case_name analysis_name grid_name base_grid_name climo_nyears
      start_date end_date base_start_date base_end_date).base_grid_name = grid_name ∧
    (rofSetupCell case_name analysis_name grid_name base_grid_name climo_nyears
      start_date end_date base_start_date base_end_date).case_entry.grid =
      (rofSetupCell case_name analysis_name grid_name base_grid_name climo_nyears
        start_date end_date base_start_date base_end_date).base_case_entry.grid := by
  unfold rofSetupCell
  simp [h]

/-- Witness for C9: a base grid name differing from the case grid name is
discarded and both case_dic entries get the case grid. -/
theorem base_grid_name_always_discarded_witness :
    (rofSetupCell "case104" "" "f09_f09_mosart" "r05_r05" 10
      "0001-01-01" "0100-01-01" "0001-01-01" "0100-01-01").base_grid_name =
      "f09_f09_mosart" ∧
    (rofSetupCell "case104" "" "f09_f09_mosart" "r05_r05" 10
      "0001-01-01" "0100-01-01" "0001-01-01" "0100-01-01").case_entry.grid =
      (rofSetupCell "case104" "" "f09_f09_mosart" "r05_r05" 10
        "0001-01-01" "0100-01-01" "0001-01-01" "0100-01-01").base_case_entry.grid :=
  base_grid_name_always_discarded "case104" "" "f09_f09_mosart" "r05_r05" 10
    "0001-01-01" "0100-01-01" "0001-01-01" "0100-01-01" (by decide)

/-- C10: with CUPID_RUN_ALL equal to FALSE, if none of the six component
variables is TRUE the driver script exits with status 1 before generating
any CUPiD configuration or running any pipeline step, and if at least one
of them is TRUE the assembled component-flag string is non-empty and the
script proceeds past the check. -/
theorem component_flag_empty_check (e : CesmPostEnv)
    (hall : e.run_all = "FALSE") :
    ((e.run_atm ≠ "TRUE" ∧ e.run_ocn ≠ "TRUE" ∧ e.run_lnd ≠ "TRUE" ∧
      e.run_ice ≠ "TRUE" ∧ e.run_rof ≠ "TRUE" ∧ e.run_glc ≠ "TRUE") →
        cesmPostFlagString e = .error 1 ∧ configGenerated e = false) ∧
    ((e.run_atm = "TRUE" ∨ e.run_ocn = "TRUE" ∨ e.run_lnd = "TRUE" ∨
      e.run_ice = "TRUE" ∨ e.run_rof = "TRUE" ∨ e.run_glc = "TRUE") →
        ∃ s, cupidFlagAssembly e = .ok s ∧ s ≠ "") := by
  constructor
  · rintro ⟨h1, h2, h3, h4, h5, h6⟩
    have hc : componentFlags e = "" := by
      unfold componentFlags flagPiece
      rw [if_neg h1, if_neg h2, if_neg h3, if_neg h4, if_neg h5, if_neg h6]
      rfl
    have hass : cupidFlagAssembly e = .error 1 := by
      unfold cupidFlagAssembly
      rw [if_pos hall]
      simp [hc]
    constructor
    · unfold cesmPostFlagString
      rw [hass]
    · unfold configGenerated cesmPostFlagString
      rw [hass]
  · intro hone
    have hne : componentFlags e ≠ "" := by
      unfold componentFlags
      rcases hone with h | h | h | h | h | h
      · apply string_append_ne_empty_left
        apply string_append_ne_empty_left
        apply string_append_ne_empty_left
        apply string_append_ne_empty_left
        apply string_append_ne_empty_left
        unfold flagPiece
        rw [if_pos h]
        decide
      · apply string_append_ne_empty_left
        apply string_append_ne_empty_left
        apply string_append_ne_empty_left
        apply string_append_ne_empty_left
        apply string_append_ne_empty_right
        unfold flagPiece
        rw [if_pos h]
        decide
      · apply string_append_ne_empty_left
        apply string_append_ne_empty_left
        apply string_append_ne_empty_left
        apply string_append_ne_empty_right
        unfold flagPiece
        rw [if_pos h]
        decide
      · apply string_append_ne_empty_left
        apply string_append_ne_empty_left
        apply string_append_ne_empty_right
        unfold flagPiece
        rw [if_pos h]
        decide
      · apply string_append_ne_empty_left
        apply string_append_ne_empty_right
        unfold flagPiece
        rw [if_pos h]
        decide
      · apply string_append_ne_empty_right
        unfold flagPiece
        rw [if_pos h]
        decide
    refine ⟨componentFlags e, ?_, hne⟩
    unfold cupidFlagAssembly
    rw [if_pos hall, if_neg hne]

/-- Witness for C10: with CUPID_RUN_ALL FALSE and every component variable
FALSE the script exits with status 1 and no configuration is generated;
flipping CUPID_RUN_OCN to TRUE yields the non-empty flag string. -/
theorem component_flag_empty_check_witness :
    (cesmPostFlagString
        { run_all := "FALSE", run_atm := "FALSE", run_ocn := "FALSE",
          run_lnd := "FALSE", run_ice := "FALSE", run_rof := "FALSE",
          run_glc := "FALSE", ntasks := "8" } = .error 1 ∧
      configGenerated
        { run_all := "FALSE", run_atm := "FALSE", run_ocn := "FALSE",
          run_lnd := "FALSE", run_ice := "FALSE", run_rof := "FALSE",
          run_glc := "FALSE", ntasks := "8" } = false) ∧
    (∃ s, cupidFlagAssembly
        { run_all := "FALSE", run_atm := "FALSE", run_ocn := "TRUE",
          run_lnd := "FALSE", run_ice := "FALSE", run_rof := "FALSE",
          run_glc := "FALSE", ntasks := "8" } = .ok s ∧ s ≠ "") :=
  ⟨(component_flag_empty_check
      { run_all := "FALSE", run_atm := "FALSE", run_ocn := "FALSE",
        run_lnd := "FALSE", run_ice := "FALSE", run_rof := "FALSE",
        run_glc := "FALSE", ntasks := "8" } rfl).1
      (by refine ⟨?_, ?_, ?_, ?_, ?_, ?_⟩ <;> decide),
   (component_flag_empty_check
      { run_all := "FALSE", run_atm := "FALSE", run_ocn := "TRUE",
        run_lnd := "FALSE", run_ice := "FALSE", run_rof := "FALSE",
        run_glc := "FALSE", ntasks := "8" } rfl).2
      (Or.inr (Or.inl rfl))⟩

end CUPiD
